import Mathlib

/-
Verification of the options-page controller of a browser-extension
settings form.  The TypeScript source consists of a Settings model
(defaults and field types) and an options controller providing
storage access with sync→local fallback, settings normalization,
hint-text derivation, DOM element lookup, and load/save routines.
The definitions below are a shallow embedding of that source.
-/

/-- Model of a JavaScript runtime value as stored in a record:
a string, a boolean, a number, or null.  `typeof` checks in the
source distinguish strings and booleans from everything else. -/
inductive JsVal where
  | str : String → JsVal
  | boolv : Bool → JsVal
  | num : Int → JsVal
  | nullv : JsVal
  deriving DecidableEq

/-- Model of a JavaScript plain object (`Record<string, unknown>`):
an association list from key to value, first match wins. -/
abbrev RawRecord := List (String × JsVal)

/-- Key lookup in a raw record, mirroring JavaScript property access:
`lookupRaw data k` is `some v` when the key is present with value `v`,
and `none` when the key is absent (property access yields undefined). -/
def lookupRaw : RawRecord → String → Option JsVal
  | [], _ => none
  | (k, v) :: rest, key => if k = key then some v else lookupRaw rest key

/-- The Settings record from the settings module: five fields,
a string key name and four boolean flags. -/
structure Settings where
  skipKey : String
  holdToSend : Bool
  autoExpandChats : Bool
  autoTempChat : Bool
  tempChatEnabled : Bool
  deriving DecidableEq

/-- The constant SETTINGS_DEFAULTS of the settings module. -/
def SETTINGS_DEFAULTS : Settings :=
  { skipKey := "Shift"
    holdToSend := false
    autoExpandChats := true
    autoTempChat := false
    tempChatEnabled := false }

/-- View of a Settings value as the raw record a JavaScript caller
would pass around (the SettingsRecord shape of the source). -/
def settingsToRaw (s : Settings) : RawRecord :=
  [("skipKey", JsVal.str s.skipKey),
   ("holdToSend", JsVal.boolv s.holdToSend),
   ("autoExpandChats", JsVal.boolv s.autoExpandChats),
   ("autoTempChat", JsVal.boolv s.autoTempChat),
   ("tempChatEnabled", JsVal.boolv s.tempChatEnabled)]

/-- Embedding of `normalizeSettings`: the argument is `none` for a
null or undefined input (the source applies `value ?? {}`), otherwise
the raw record.  Each field keeps the raw value exactly when its
`typeof` matches (string for skipKey, boolean for the flags) and
falls back to the default otherwise. -/
def normalizeSettings (value : Option RawRecord) : Settings :=
  let data := value.getD []
  { skipKey :=
      match lookupRaw data "skipKey" with
      | some (JsVal.str s) => s
      | _ => SETTINGS_DEFAULTS.skipKey
    holdToSend :=
      match lookupRaw data "holdToSend" with
      | some (JsVal.boolv b) => b
      | _ => SETTINGS_DEFAULTS.holdToSend
    autoExpandChats :=
      match lookupRaw data "autoExpandChats" with
      | some (JsVal.boolv b) => b
      | _ => SETTINGS_DEFAULTS.autoExpandChats
    autoTempChat :=
      match lookupRaw data "autoTempChat" with
      | some (JsVal.boolv b) => b
      | _ => SETTINGS_DEFAULTS.autoTempChat
    tempChatEnabled :=
      match lookupRaw data "tempChatEnabled" with
      | some (JsVal.boolv b) => b
      | _ => SETTINGS_DEFAULTS.tempChatEnabled }

/-- Embedding of `setHint`: the text assigned to the hint element,
as a pure function of the two inputs.  The source writes the result
into `hintEl.textContent`; the string computed here is that text. -/
def setHint (skipKey : String) (holdToSend : Bool) : String :=
  if skipKey = "None" then
    if holdToSend then
      "Auto-send is disabled because no modifier key is selected."
    else
      "Auto-send always happens when you accept dictation."
  else
    if holdToSend then
      "Auto-send happens only while holding " ++ skipKey ++ " when you accept dictation."
    else
      "Hold " ++ skipKey ++ " while accepting dictation to skip auto-send."

/-- Model of one storage area (`StorageAreaLike`).  A call to its
`get` either completes with a record or fails (callback error signal,
promise rejection, or thrown exception are all normalized to one
failure by the source's `tryGet`); likewise `set`.  The fields hold
the outcome a call to this area produces. -/
structure Area where
  getR : Except String RawRecord
  setR : Except String Unit

/-- Model of a `StorageApi` value: optional sync and local areas. -/
structure StorageApi where
  sync : Option Area
  localArea : Option Area

/-- Model of one ambient global (`browser` or `chrome`): when defined
it may or may not carry a storage object. -/
structure GlobalObj where
  storage : Option StorageApi

/-- Model of the host environment: each of the two globals is either
undefined (`none`) or defined with its optional storage object. -/
structure Env where
  browserG : Option GlobalObj
  chromeG : Option GlobalObj

/-- Embedding of `getStorageArea`: pick the `browser` global when it
is defined, else `chrome`; within the chosen global's storage object,
return the sync area when `preferSync` is set and sync exists,
else the local area, else nothing. -/
def getStorageArea (e : Env) (preferSync : Bool) : Option Area :=
  let api := match e.browserG with
    | some g => some g
    | none => e.chromeG
  match api with
  | none => none
  | some g =>
    match g.storage with
    | none => none
    | some storage =>
      if preferSync && storage.sync.isSome then storage.sync
      else storage.localArea

/-- The storage api reachable from the environment: the one of the
`browser` global when that global is defined, else `chrome`'s. -/
def chosenApi (e : Env) : Option StorageApi :=
  match e.browserG with
  | some g => g.storage
  | none =>
    match e.chromeG with
    | some g => g.storage
    | none => none

/-- The synced area of the chosen storage api, when present. -/
def envSync (e : Env) : Option Area := (chosenApi e).bind StorageApi.sync

/-- The local area of the chosen storage api, when present. -/
def envLocal (e : Env) : Option Area := (chosenApi e).bind StorageApi.localArea

/-- Embedding of `storageGet`.  The result pairs the completion of the
async call (a record on success, an error on rejection) with the trace
of area invocations, each recording the area and the keys argument.
The sync attempt's failure is swallowed by `try ... catch {}`; the
local attempt is not wrapped, so its failure is the call's failure. -/
def storageGet (e : Env) (keys : RawRecord) :
    Except String RawRecord × List (Area × RawRecord) :=
  let areaSync := getStorageArea e true
  let areaLocal := getStorageArea e false
  match areaSync with
  | some a =>
    match a.getR with
    | Except.ok r => (Except.ok r, [(a, keys)])
    | Except.error _ =>
      match areaLocal with
      | some b => (b.getR, [(a, keys), (b, keys)])
      | none => (Except.ok [], [(a, keys)])
  | none =>
    match areaLocal with
    | some b => (b.getR, [(b, keys)])
    | none => (Except.ok [], [])

/-- Embedding of `storageSet`.  The sync attempt's failure is
swallowed and `syncOk` stays false; then the local area, when present,
is invoked with the same payload, and its failure propagates. -/
def storageSet (e : Env) (obj : RawRecord) :
    Except String Unit × List (Area × RawRecord) :=
  let areaSync := getStorageArea e true
  let areaLocal := getStorageArea e false
  match areaSync with
  | some a =>
    match a.setR with
    | Except.ok _ => (Except.ok (), [(a, obj)])
    | Except.error _ =>
      match areaLocal with
      | some b => (b.setR, [(a, obj), (b, obj)])
      | none => (Except.ok (), [(a, obj)])
  | none =>
    match areaLocal with
    | some b => (b.setR, [(b, obj)])
    | none => (Except.ok (), [])

/-- Model of a DOM element; the field records its identifier. -/
structure DomElement where
  elemId : String
  deriving DecidableEq

/-- Embedding of `mustGetElement`: `document.getElementById` is the
function argument; a missing element becomes a thrown error. -/
def mustGetElement (doc : String → Option DomElement) (id : String) :
    Except String DomElement :=
  match doc id with
  | some el => Except.ok el
  | none => Except.error ("Missing element: " ++ id)

/-- Embedding of the module-initialization element lookups (hintEl,
selectEl, holdEl, autoExpandEl, autoTempChatEl): the first missing
element aborts construction with its error. -/
def initElements (doc : String → Option DomElement) :
    Except String (DomElement × DomElement × DomElement × DomElement × DomElement) :=
  match mustGetElement doc "hint" with
  | Except.error m => Except.error m
  | Except.ok hintEl =>
    match mustGetElement doc "skipKey" with
    | Except.error m => Except.error m
    | Except.ok selectEl =>
      match mustGetElement doc "holdToSend" with
      | Except.error m => Except.error m
      | Except.ok holdEl =>
        match mustGetElement doc "autoExpandChats" with
        | Except.error m => Except.error m
        | Except.ok autoExpandEl =>
          match mustGetElement doc "autoTempChat" with
          | Except.error m => Except.error m
          | Except.ok autoTempChatEl =>
            Except.ok (hintEl, selectEl, holdEl, autoExpandEl, autoTempChatEl)

/-- Model of the form-control state the controller reads and writes:
the select's value, the three checkboxes, and the hint element text. -/
structure FormState where
  selectValue : String
  holdChecked : Bool
  autoExpandChecked : Bool
  autoTempChecked : Bool
  hintContent : String
  deriving DecidableEq

/-- Embedding of the payload object literal assembled by `save`:
the form values, with `autoTempChat` duplicated into
`tempChatEnabled`. -/
def savePayload (f : FormState) : RawRecord :=
  [("skipKey", JsVal.str f.selectValue),
   ("holdToSend", JsVal.boolv f.holdChecked),
   ("autoExpandChats", JsVal.boolv f.autoExpandChecked),
   ("autoTempChat", JsVal.boolv f.autoTempChecked),
   ("tempChatEnabled", JsVal.boolv f.autoTempChecked)]

/-- Embedding of `save`: persist the payload via storageSet, then
recompute the hint.  When storageSet rejects, the hint update is not
reached (the caller swallows the rejection); the result pairs the
updated form state with the storage outcome and trace. -/
def save (e : Env) (f : FormState) :
    FormState × (Except String Unit × List (Area × RawRecord)) :=
  let r := storageSet e (savePayload f)
  (match r.1 with
   | Except.ok _ => { f with hintContent := setHint f.selectValue f.holdChecked }
   | Except.error _ => f, r)

/-- Embedding of `load`: fetch with the defaults as the keys argument,
normalize, write the settings into the controls and recompute the
hint.  When storageGet rejects, the form keeps its prior state (the
caller swallows the rejection). -/
def load (e : Env) (f : FormState) : FormState :=
  match (storageGet e (settingsToRaw SETTINGS_DEFAULTS)).1 with
  | Except.error _ => f
  | Except.ok data =>
    let settings := normalizeSettings (some data)
    { selectValue := settings.skipKey
      holdChecked := settings.holdToSend
      autoExpandChecked := settings.autoExpandChats
      autoTempChecked := settings.autoTempChat
      hintContent := setHint settings.skipKey settings.holdToSend }

/-
Bridge lemmas relating `getStorageArea` to the chosen api's areas.
-/

/-- A lookup with preferSync returns the chosen api's sync area when
it exists, otherwise its local area. -/
theorem getStorageArea_true_eq (e : Env) :
    getStorageArea e true =
      (match envSync e with
       | some a => some a
       | none => envLocal e) := by
  rcases e with ⟨bg, cg⟩
  rcases bg with _ | g
  · rcases cg with _ | g
    · rfl
    · rcases g with ⟨_ | api⟩
      · rfl
      · rcases api with ⟨_ | a, lo⟩ <;> rfl
  · rcases g with ⟨_ | api⟩
    · rfl
    · rcases api with ⟨_ | a, lo⟩ <;> rfl

/-- A lookup without preferSync returns the chosen api's local area. -/
theorem getStorageArea_false_eq (e : Env) :
    getStorageArea e false = envLocal e := by
  rcases e with ⟨bg, cg⟩
  rcases bg with _ | g
  · rcases cg with _ | g
    · rfl
    · rcases g with ⟨_ | api⟩
      · rfl
      · rcases api with ⟨_ | a, lo⟩ <;> rfl
  · rcases g with ⟨_ | api⟩
    · rfl
    · rcases api with ⟨_ | a, lo⟩ <;> rfl

/-- When the preferSync lookup finds no area, neither does the plain
lookup: no area at all is reachable from the environment. -/
theorem getStorageArea_false_none (e : Env)
    (h : getStorageArea e true = none) : getStorageArea e false = none := by
  have h0 := (getStorageArea_true_eq e).symm.trans h
  rw [getStorageArea_false_eq]
  cases hs : envSync e with
  | some a => rw [hs] at h0; exact Option.noConfusion h0
  | none => rw [hs] at h0; exact h0

/-- C2: for every raw input to normalization (null, undefined, or any
record), each field of the result equals the raw value exactly when
its type matches (string for skipKey, boolean for the four flags) and
the corresponding default otherwise; normalizing an empty record or a
null input yields the default Settings value exactly. -/
theorem normalizeSettings_typed_or_default (v : Option RawRecord) :
    (∀ s, lookupRaw (v.getD []) "skipKey" = some (JsVal.str s) →
      (normalizeSettings v).skipKey = s) ∧
    ((∀ s, lookupRaw (v.getD []) "skipKey" ≠ some (JsVal.str s)) →
      (normalizeSettings v).skipKey = SETTINGS_DEFAULTS.skipKey) ∧
    (∀ b, lookupRaw (v.getD []) "holdToSend" = some (JsVal.boolv b) →
      (normalizeSettings v).holdToSend = b) ∧
    ((∀ b, lookupRaw (v.getD []) "holdToSend" ≠ some (JsVal.boolv b)) →
      (normalizeSettings v).holdToSend = SETTINGS_DEFAULTS.holdToSend) ∧
    (∀ b, lookupRaw (v.getD []) "autoExpandChats" = some (JsVal.boolv b) →
      (normalizeSettings v).autoExpandChats = b) ∧
    ((∀ b, lookupRaw (v.getD []) "autoExpandChats" ≠ some (JsVal.boolv b)) →
      (normalizeSettings v).autoExpandChats = SETTINGS_DEFAULTS.autoExpandChats) ∧
    (∀ b, lookupRaw (v.getD []) "autoTempChat" = some (JsVal.boolv b) →
      (normalizeSettings v).autoTempChat = b) ∧
    ((∀ b, lookupRaw (v.getD []) "autoTempChat" ≠ some (JsVal.boolv b)) →
      (normalizeSettings v).autoTempChat = SETTINGS_DEFAULTS.autoTempChat) ∧
    (∀ b, lookupRaw (v.getD []) "tempChatEnabled" = some (JsVal.boolv b) →
      (normalizeSettings v).tempChatEnabled = b) ∧
    ((∀ b, lookupRaw (v.getD []) "tempChatEnabled" ≠ some (JsVal.boolv b)) →
      (normalizeSettings v).tempChatEnabled = SETTINGS_DEFAULTS.tempChatEnabled) ∧
    normalizeSettings (some []) = SETTINGS_DEFAULTS ∧
    normalizeSettings none = SETTINGS_DEFAULTS := by
  refine ⟨?_, ?_, ?_, ?_, ?_, ?_, ?_, ?_, ?_, ?_, rfl, rfl⟩
  · intro s h; simp [normalizeSettings, h]
  · intro h
    cases hk : lookupRaw (v.getD []) "skipKey" with
    | none => simp [normalizeSettings, hk]
    | some jv =>
      cases jv with
      | str s => exact absurd hk (h s)
      | boolv b => simp [normalizeSettings, hk]
      | num n => simp [normalizeSettings, hk]
      | nullv => simp [normalizeSettings, hk]
  · intro b h; simp [normalizeSettings, h]
  · intro h
    cases hk : lookupRaw (v.getD []) "holdToSend" with
    | none => simp [normalizeSettings, hk]
    | some jv =>
      cases jv with
      | str s => simp [normalizeSettings, hk]
      | boolv b => exact absurd hk (h b)
      | num n => simp [normalizeSettings, hk]
      | nullv => simp [normalizeSettings, hk]
  · intro b h; simp [normalizeSettings, h]
  · intro h
    cases hk : lookupRaw (v.getD []) "autoExpandChats" with
    | none => simp [normalizeSettings, hk]
    | some jv =>
      cases jv with
      | str s => simp [normalizeSettings, hk]
      | boolv b => exact absurd hk (h b)
      | num n => simp [normalizeSettings, hk]
      | nullv => simp [normalizeSettings, hk]
  · intro b h; simp [normalizeSettings, h]
  · intro h
    cases hk : lookupRaw (v.getD []) "autoTempChat" with
    | none => simp [normalizeSettings, hk]
    | some jv =>
      cases jv with
      | str s => simp [normalizeSettings, hk]
      | boolv b => exact absurd hk (h b)
      | num n => simp [normalizeSettings, hk]
      | nullv => simp [normalizeSettings, hk]
  · intro b h; simp [normalizeSettings, h]
  · intro h
    cases hk : lookupRaw (v.getD []) "tempChatEnabled" with
    | none => simp [normalizeSettings, hk]
    | some jv =>
      cases jv with
      | str s => simp [normalizeSettings, hk]
      | boolv b => exact absurd hk (h b)
      | num n => simp [normalizeSettings, hk]
      | nullv => simp [normalizeSettings, hk]

/-- Witness for C2 at the record with a mistyped skipKey (a number)
and a well-typed holdToSend: skipKey falls back to the default and
holdToSend keeps the stored value. -/
theorem normalizeSettings_typed_or_default_witness :
    (normalizeSettings (some [("skipKey", JsVal.num 42), ("holdToSend", JsVal.boolv true)])).skipKey
      = "Shift" ∧
    (normalizeSettings (some [("skipKey", JsVal.num 42), ("holdToSend", JsVal.boolv true)])).holdToSend
      = true :=
  ⟨(normalizeSettings_typed_or_default
      (some [("skipKey", JsVal.num 42), ("holdToSend", JsVal.boolv true)])).2.1
      (fun s h => by simp [lookupRaw] at h),
   (normalizeSettings_typed_or_default
      (some [("skipKey", JsVal.num 42), ("holdToSend", JsVal.boolv true)])).2.2.1
      true (by simp [lookupRaw])⟩

/-- C3: the hint text is a deterministic pure function of skipKey and
holdToSend with exactly the four outputs of the specification table. -/
theorem setHint_cases (k : String) :
    setHint "None" false = "Auto-send always happens when you accept dictation." ∧
    setHint "None" true = "Auto-send is disabled because no modifier key is selected." ∧
    (k ≠ "None" →
      setHint k false = "Hold " ++ k ++ " while accepting dictation to skip auto-send.") ∧
    (k ≠ "None" →
      setHint k true =
        "Auto-send happens only while holding " ++ k ++ " when you accept dictation.") := by
  refine ⟨rfl, rfl, ?_, ?_⟩ <;> intro h <;> simp [setHint, h]

/-- Witness for C3 at the non-sentinel key Ctrl. -/
theorem setHint_cases_witness :
    setHint "Ctrl" false = "Hold Ctrl while accepting dictation to skip auto-send." ∧
    setHint "Ctrl" true =
      "Auto-send happens only while holding Ctrl when you accept dictation." :=
  ⟨((setHint_cases "Ctrl").2.2.1 (by decide)).trans (by decide),
   ((setHint_cases "Ctrl").2.2.2 (by decide)).trans (by decide)⟩

/-- C9: normalization is idempotent, and it is the identity on values
that are already complete, correctly typed Settings records. -/
theorem normalizeSettings_idempotent_identity :
    (∀ v : Option RawRecord,
      normalizeSettings (some (settingsToRaw (normalizeSettings v))) = normalizeSettings v) ∧
    (∀ s : Settings, normalizeSettings (some (settingsToRaw s)) = s) := by
  have hid : ∀ s : Settings, normalizeSettings (some (settingsToRaw s)) = s := by
    intro s; cases s; rfl
  exact ⟨fun v => hid (normalizeSettings v), hid⟩

/-- C5: the payload assembled by save carries tempChatEnabled equal to
autoTempChat, has exactly the five Settings keys in the persisted
layout, and stores a string for skipKey and booleans for the flags. -/
theorem savePayload_shape (f : FormState) :
    lookupRaw (savePayload f) "tempChatEnabled" = lookupRaw (savePayload f) "autoTempChat" ∧
    lookupRaw (savePayload f) "tempChatEnabled" = some (JsVal.boolv f.autoTempChecked) ∧
    (savePayload f).map Prod.fst =
      ["skipKey", "holdToSend", "autoExpandChats", "autoTempChat", "tempChatEnabled"] ∧
    lookupRaw (savePayload f) "skipKey" = some (JsVal.str f.selectValue) ∧
    lookupRaw (savePayload f) "holdToSend" = some (JsVal.boolv f.holdChecked) ∧
    lookupRaw (savePayload f) "autoExpandChats" = some (JsVal.boolv f.autoExpandChecked) := by
  refine ⟨?_, ?_, ?_, ?_, ?_, ?_⟩ <;> rfl

/-
Concrete environments used by counterexamples and witnesses.
-/

/-- An area whose get call fails with a sync-side message. -/
def areaSyncGetFail : Area :=
  { getR := Except.error "sync get failed", setR := Except.ok () }

/-- An area whose get call fails with a local-side message. -/
def areaLocalGetFail : Area :=
  { getR := Except.error "local get failed", setR := Except.ok () }

/-- An environment exposing the given api on the browser global. -/
def browserEnv (api : StorageApi) : Env :=
  { browserG := some { storage := some api }, chromeG := none }

/-- An environment whose chosen api has a failing sync area and a
failing local area. -/
def envBothGetFail : Env :=
  browserEnv { sync := some areaSyncGetFail, localArea := some areaLocalGetFail }

/-- C1 counterexample: with a sync area and a local area whose get
calls both fail, storageGet does not complete normally with an empty
mapping; the local attempt's failure propagates to the caller. -/
theorem storageGet_bothFail_rejects :
    (storageGet envBothGetFail []).1 = Except.error "local get failed" ∧
    (storageGet envBothGetFail []).1 ≠ Except.ok [] := by
  refine ⟨rfl, ?_⟩
  intro h
  have h2 : (Except.error "local get failed" : Except String RawRecord)
      = Except.ok [] := h
  exact Except.noConfusion h2

/-- C1 (amended): if the sync attempt succeeds its result is returned;
if the sync attempt fails, the result is exactly what the local area's
get returns (success or failure alike, so a failing local get rejects
the whole call); if no local area exists after a failed sync attempt,
or no area exists at all, the call completes with an empty mapping. -/
theorem storageGet_fallback (e : Env) (keys : RawRecord) :
    (∀ a r, getStorageArea e true = some a → a.getR = Except.ok r →
      (storageGet e keys).1 = Except.ok r) ∧
    (∀ a m b, getStorageArea e true = some a → a.getR = Except.error m →
      getStorageArea e false = some b → (storageGet e keys).1 = b.getR) ∧
    (∀ a m, getStorageArea e true = some a → a.getR = Except.error m →
      getStorageArea e false = none → (storageGet e keys).1 = Except.ok []) ∧
    (getStorageArea e true = none → (storageGet e keys).1 = Except.ok []) := by
  refine ⟨?_, ?_, ?_, ?_⟩
  · intro a r h1 h2; simp [storageGet, h1, h2]
  · intro a m b h1 h2 h3; simp [storageGet, h1, h2, h3]
  · intro a m h1 h2 h3; simp [storageGet, h1, h2, h3]
  · intro h1
    have h2 := getStorageArea_false_none e h1
    simp [storageGet, h1, h2]

/-- An area whose get call succeeds with stored data. -/
def areaLocalData : Area :=
  { getR := Except.ok [("skipKey", JsVal.str "Alt")], setR := Except.ok () }

/-- An environment with a failing sync area and a local area holding
data. -/
def envSyncFailLocalData : Env :=
  browserEnv { sync := some areaSyncGetFail, localArea := some areaLocalData }

/-- Witness for C1 (amended): when the sync get fails, the result is
the local area's data. -/
theorem storageGet_fallback_witness :
    (storageGet envSyncFailLocalData []).1 = Except.ok [("skipKey", JsVal.str "Alt")] :=
  (storageGet_fallback envSyncFailLocalData []).2.1
    areaSyncGetFail "sync get failed" areaLocalData rfl rfl rfl

/-- C4: storageSet tries the sync area first; when that write succeeds
the call ends with exactly the one invocation, when it fails the local
area is invoked with the identical payload, when no sync area exists
the local area receives the first invocation with the payload, and
when no area exists the call completes without persisting and without
an error. -/
theorem storageSet_fallback (e : Env) (obj : RawRecord) :
    (∀ a, envSync e = some a → a.setR = Except.ok () →
      storageSet e obj = (Except.ok (), [(a, obj)])) ∧
    (∀ a b m, envSync e = some a → a.setR = Except.error m → envLocal e = some b →
      (storageSet e obj).2 = [(a, obj), (b, obj)]) ∧
    (∀ b, envSync e = none → envLocal e = some b →
      ((storageSet e obj).2).head? = some (b, obj)) ∧
    (envSync e = none → envLocal e = none →
      storageSet e obj = (Except.ok (), [])) := by
  refine ⟨?_, ?_, ?_, ?_⟩
  · intro a h1 h2
    have ht : getStorageArea e true = some a := by
      rw [getStorageArea_true_eq, h1]
    simp [storageSet, ht, h2]
  · intro a b m h1 h2 h3
    have ht : getStorageArea e true = some a := by
      rw [getStorageArea_true_eq, h1]
    have hf : getStorageArea e false = some b := by
      rw [getStorageArea_false_eq]; exact h3
    simp [storageSet, ht, h2, hf]
  · intro b h1 h2
    have ht : getStorageArea e true = some b := by
      rw [getStorageArea_true_eq, h1]; exact h2
    have hf : getStorageArea e false = some b := by
      rw [getStorageArea_false_eq]; exact h2
    cases hbr : b.setR with
    | ok u => simp [storageSet, ht, hf, hbr]
    | error m => simp [storageSet, ht, hf, hbr]
  · intro h1 h2
    have ht : getStorageArea e true = none := by
      rw [getStorageArea_true_eq, h1]; exact h2
    have hf : getStorageArea e false = none := by
      rw [getStorageArea_false_eq]; exact h2
    simp [storageSet, ht, hf]

/-- An area whose set call fails. -/
def areaSetFailSync : Area :=
  { getR := Except.ok [], setR := Except.error "sync set failed" }

/-- An area whose set call succeeds. -/
def areaSetOkLocal : Area :=
  { getR := Except.ok [], setR := Except.ok () }

/-- An environment with a failing sync write and a working local
area. -/
def envSetFallback : Env :=
  browserEnv { sync := some areaSetFailSync, localArea := some areaSetOkLocal }

/-- Witness for C4: a failing sync write is followed by a local write
carrying the identical payload. -/
theorem storageSet_fallback_witness :
    (storageSet envSetFallback [("skipKey", JsVal.str "Alt")]).2 =
      [(areaSetFailSync, [("skipKey", JsVal.str "Alt")]),
       (areaSetOkLocal, [("skipKey", JsVal.str "Alt")])] :=
  (storageSet_fallback envSetFallback [("skipKey", JsVal.str "Alt")]).2.1
    areaSetFailSync areaSetOkLocal "sync set failed" rfl rfl rfl

/-- C6: initialization fails fast with a thrown error when any of the
five required elements is absent by identifier, and succeeds with all
five elements when every lookup finds one. -/
theorem initElements_failFast (doc : String → Option DomElement) :
    ((doc "hint" = none ∨ doc "skipKey" = none ∨ doc "holdToSend" = none ∨
      doc "autoExpandChats" = none ∨ doc "autoTempChat" = none) →
      ∃ m, initElements doc = Except.error m) ∧
    ((∃ h1, doc "hint" = some h1) ∧ (∃ s1, doc "skipKey" = some s1) ∧
     (∃ h2, doc "holdToSend" = some h2) ∧ (∃ a1, doc "autoExpandChats" = some a1) ∧
     (∃ t1, doc "autoTempChat" = some t1) →
      ∃ els, initElements doc = Except.ok els) := by
  constructor
  · intro hmiss
    rcases hh : doc "hint" with _ | h1
    · exact ⟨"Missing element: hint", by simp [initElements, mustGetElement, hh]⟩
    · rcases hs : doc "skipKey" with _ | s1
      · exact ⟨"Missing element: skipKey", by simp [initElements, mustGetElement, hh, hs]⟩
      · rcases hho : doc "holdToSend" with _ | h2
        · exact ⟨"Missing element: holdToSend",
            by simp [initElements, mustGetElement, hh, hs, hho]⟩
        · rcases ha : doc "autoExpandChats" with _ | a1
          · exact ⟨"Missing element: autoExpandChats",
              by simp [initElements, mustGetElement, hh, hs, hho, ha]⟩
          · rcases ht : doc "autoTempChat" with _ | t1
            · exact ⟨"Missing element: autoTempChat",
                by simp [initElements, mustGetElement, hh, hs, hho, ha, ht]⟩
            · rcases hmiss with h | h | h | h | h <;> simp_all
  · rintro ⟨⟨h1, hh⟩, ⟨s1, hs⟩, ⟨h2, hho⟩, ⟨a1, ha⟩, ⟨t1, ht⟩⟩
    exact ⟨(h1, s1, h2, a1, t1),
      by simp [initElements, mustGetElement, hh, hs, hho, ha, ht]⟩

/-- A document holding every element by its identifier. -/
def docAll : String → Option DomElement := fun id => some { elemId := id }

/-- A document missing the holdToSend element. -/
def docNoHold : String → Option DomElement :=
  fun id => if id = "holdToSend" then none else some { elemId := id }

/-- Witness for C6: a missing holdToSend element aborts construction,
and a complete document initializes successfully. -/
theorem initElements_failFast_witness :
    (∃ m, initElements docNoHold = Except.error m) ∧
    (∃ els, initElements docAll = Except.ok els) :=
  ⟨(initElements_failFast docNoHold).1 (Or.inr (Or.inr (Or.inl rfl))),
   (initElements_failFast docAll).2
     ⟨⟨_, rfl⟩, ⟨_, rfl⟩, ⟨_, rfl⟩, ⟨_, rfl⟩, ⟨_, rfl⟩⟩⟩

/-- An area standing for chrome's synced storage. -/
def areaChromeSync : Area := { getR := Except.ok [], setR := Except.ok () }

/-- An api carrying only a sync area. -/
def apiSyncOnly : StorageApi := { sync := some areaChromeSync, localArea := none }

/-- An environment where the browser global is defined but carries no
storage object, while the chrome global carries storage with a sync
area. -/
def envBrowserBare : Env :=
  { browserG := some { storage := none }, chromeG := some { storage := some apiSyncOnly } }

/-- C7 counterexample: with the browser global defined but lacking a
storage object while chrome carries one, the lookup yields no area at
all instead of using chrome's storage; removing the browser global
makes the same chrome storage supply its sync area. -/
theorem getStorageArea_browserShadow_cex :
    getStorageArea envBrowserBare true = none ∧
    getStorageArea { browserG := none, chromeG := envBrowserBare.chromeG } true =
      some areaChromeSync :=
  ⟨rfl, rfl⟩

/-- C7 (amended): the global is chosen by definedness alone — when the
browser global is defined, chrome is ignored entirely, storage or not;
when browser is undefined, chrome is consulted; the chosen global's
storage (when present) supplies the area, and a chosen global without
storage yields no area even if the other global carries one. -/
theorem getStorageArea_globalChoice (e : Env) (p : Bool) :
    (∀ g, e.browserG = some g →
      getStorageArea e p = getStorageArea { browserG := some g, chromeG := none } p) ∧
    (e.browserG = none →
      getStorageArea e p = getStorageArea { browserG := none, chromeG := e.chromeG } p) ∧
    (∀ g api a, e.browserG = some g → g.storage = some api → api.sync = some a →
      getStorageArea e true = some a) ∧
    (∀ g, e.browserG = some g → g.storage = none → getStorageArea e p = none) := by
  refine ⟨?_, ?_, ?_, ?_⟩
  · intro g h
    rcases e with ⟨bg, cg⟩
    cases h
    rfl
  · intro h
    rcases e with ⟨bg, cg⟩
    cases h
    rfl
  · intro g api a h1 h2 h3
    rcases e with ⟨bg, cg⟩
    cases h1
    simp [getStorageArea, h2, h3]
  · intro g h1 h2
    rcases e with ⟨bg, cg⟩
    cases h1
    simp [getStorageArea, h2]

/-- An environment where the browser global carries the sync-only
api. -/
def envBrowserSync : Env := browserEnv apiSyncOnly

/-- Witness for C7 (amended): a browser global carrying storage with a
sync area makes the lookup return that sync area. -/
theorem getStorageArea_globalChoice_witness :
    getStorageArea envBrowserSync true = some areaChromeSync :=
  (getStorageArea_globalChoice envBrowserSync true).2.2.1
    { storage := some apiSyncOnly } apiSyncOnly areaChromeSync rfl rfl rfl

/-- An area holding exactly the two stored keys of the end-to-end
scenario. -/
def areaAltHold : Area :=
  { getR := Except.ok [("skipKey", JsVal.str "Alt"), ("holdToSend", JsVal.boolv true)]
    setR := Except.ok () }

/-- An environment whose sync area returns the two stored keys. -/
def envAltHold : Env := browserEnv { sync := some areaAltHold, localArea := none }

/-- The form in its HTML-authored initial state. -/
def initialForm : FormState :=
  { selectValue := "Shift", holdChecked := false, autoExpandChecked := true
    autoTempChecked := false, hintContent := "" }

/-- C8: loading with stored skipKey Alt and holdToSend true and no
other keys shows Alt and checked holdToSend, the defaults for the two
remaining flags, and the holding-Alt hint text. -/
theorem load_endToEnd :
    load envAltHold initialForm =
      { selectValue := "Alt", holdChecked := true, autoExpandChecked := true
        autoTempChecked := false
        hintContent := "Auto-send happens only while holding Alt when you accept dictation." } := by
  rfl

/-- C10: when the chosen api has no sync area but has a local area,
the preferSync lookup already returns that local area, so after a
failing first attempt both storageGet and storageSet invoke the same
local area a second time with the same arguments. -/
theorem onlyLocal_sameArea_doubleInvoke (e : Env) (b : Area) (keys obj : RawRecord) :
    envSync e = none → envLocal e = some b →
    (getStorageArea e true = some b ∧
     (∀ m, b.getR = Except.error m →
       (storageGet e keys).2 = [(b, keys), (b, keys)]) ∧
     (∀ m, b.setR = Except.error m →
       (storageSet e obj).2 = [(b, obj), (b, obj)])) := by
  intro hs hl
  have ht : getStorageArea e true = some b := by
    rw [getStorageArea_true_eq, hs]; exact hl
  have hf : getStorageArea e false = some b := by
    rw [getStorageArea_false_eq]; exact hl
  refine ⟨ht, ?_, ?_⟩
  · intro m hm; simp [storageGet, ht, hf, hm]
  · intro m hm; simp [storageSet, ht, hf, hm]

/-- An area failing both operations, standing for the only (local)
area of a sync-less host. -/
def areaOnlyLocalFail : Area :=
  { getR := Except.error "local boom", setR := Except.error "local boom" }

/-- An environment exposing only a local area. -/
def envOnlyLocal : Env :=
  browserEnv { sync := none, localArea := some areaOnlyLocalFail }

/-- Witness for C10: on a sync-less host whose local get fails, the
same local area is invoked twice with the same keys. -/
theorem onlyLocal_sameArea_doubleInvoke_witness :
    (storageGet envOnlyLocal []).2 = [(areaOnlyLocalFail, []), (areaOnlyLocalFail, [])] :=
  ((onlyLocal_sameArea_doubleInvoke envOnlyLocal areaOnlyLocalFail [] []) rfl rfl).2.1
    "local boom" rfl
